import Mathlib

/-!
Shallow embedding of the USAFFE backend (`src/server.js` and the three server
variants concatenated in `src/unnamed/part_000`).

Modelling conventions:
* Times are integers (milliseconds since the epoch); `new Date(a) < new Date(b)`
  becomes integer `<`.
* Database tables are lists of row structures in insertion (rowid) order;
  `db.get` with no `ORDER BY` is modelled as the first matching row in that
  order (SQLite scan order for these tables).
* External network calls (Roblox profile / thumbnail lookups) are modelled as
  explicit outcome parameters of the handler functions.
* Freshly generated identifiers and random tokens are passed in as parameters.
-/

set_option autoImplicit false

namespace Usaffe

/-! ### Admin key / session protocol (`src/server.js` lines 455-529) -/

/-- Row of the `admin_keys` table (`src/server.js` lines 92-100):
`id INTEGER PRIMARY KEY, key TEXT UNIQUE, created_at, expires_at, used INTEGER DEFAULT 0`. -/
structure AdminKeyRow where
  id : Nat
  key : String
  createdAt : Int
  expiresAt : Int
  used : Bool
  deriving DecidableEq

/-- Outcome of `POST /api/admin/login` (`src/server.js` lines 488-529).
`missingKey` is the 400 "Key is required" response; the three 401 responses are
`invalidKey` ("Invalid key"), `expired` ("Key expired"), `alreadyUsed`
("Key already used"); `token` is the 200 `{token}` response. -/
inductive LoginResult where
  | missingKey
  | invalidKey
  | expired
  | alreadyUsed
  | token (t : String)
  deriving DecidableEq

/-- `db.get('SELECT * FROM admin_keys WHERE key = ?', [key])`: first row whose
`key` column matches (the column is UNIQUE, so at most one matches). -/
def findKey (keys : List AdminKeyRow) (k : String) : Option AdminKeyRow :=
  keys.find? (fun r => r.key == k)

/-- The continuation run on the `db.get` result in `POST /api/admin/login`
(`src/server.js` lines 498-527): no row → 401 Invalid key; then
`if (new Date(row.expires_at) < now)` → 401 Key expired; then `if (row.used)`
→ 401 Key already used; otherwise `UPDATE admin_keys SET used = 1 WHERE id = ?`
and respond with a fresh token.  `snapshot` is the row as read by the SELECT,
which may be stale with respect to `keys` under concurrent interleaving. -/
def adminLoginFinish (keys : List AdminKeyRow) (snapshot : Option AdminKeyRow)
    (now : Int) (t : String) : LoginResult × List AdminKeyRow :=
  match snapshot with
  | none => (.invalidKey, keys)
  | some row =>
    if row.expiresAt < now then (.expired, keys)
    else if row.used then (.alreadyUsed, keys)
    else (.token t,
      keys.map (fun r => if r.id = row.id then { r with used := true } else r))

/-- `POST /api/admin/login` (`src/server.js` lines 488-529) run in isolation:
the body-presence check `if (!key)` followed by the SELECT and its
continuation. -/
def adminLogin (keys : List AdminKeyRow) (k : String) (now : Int) (t : String) :
    LoginResult × List AdminKeyRow :=
  if k = "" then (.missingKey, keys)
  else adminLoginFinish keys (findKey keys k) now t

/-- Two concurrent `POST /api/admin/login` requests for the same key,
interleaved so that both SELECT callbacks observe the initial table before
either fire-and-forget `UPDATE admin_keys SET used = 1` runs (the sqlite3
driver executes queued statements in submission order: get₁, get₂, update₁,
update₂).  Each continuation validates its own snapshot. -/
def adminLoginRace (keys : List AdminKeyRow) (k : String) (now1 now2 : Int)
    (t1 t2 : String) : LoginResult × LoginResult × List AdminKeyRow :=
  let snap1 := findKey keys k
  let snap2 := findKey keys k
  let step1 := adminLoginFinish keys snap1 now1 t1
  let step2 := adminLoginFinish step1.2 snap2 now2 t2
  (step1.1, step2.1, step2.2)

/-! ### String helpers

`bio.includes(code)` is literal substring containment; JS `String.includes`
over the characters of the two strings.  SQLite numeric affinity converts a
TEXT operand to INTEGER when comparing it against an INTEGER column exactly
when the text is a well-formed integer literal; for the non-negative decimal
strings this server passes around that is `decimalToNat?`. -/

/-- `charsBeginWith needle hay`: `needle` is a prefix of `hay`. -/
def charsBeginWith : List Char → List Char → Bool
  | [], _ => true
  | _ :: _, [] => false
  | a :: as, b :: bs => a = b && charsBeginWith as bs

/-- `needle` occurs as a contiguous run inside `hay`. -/
def charsContain (needle : List Char) : List Char → Bool
  | [] => charsBeginWith needle []
  | c :: cs => charsBeginWith needle (c :: cs) || charsContain needle cs

/-- JS `hay.includes(needle)`: literal substring containment. -/
def strIncludes (hay needle : String) : Bool :=
  charsContain needle.data hay.data

/-- Accumulator loop for `decimalToNat?`. -/
def decimalAux : List Char → Nat → Option Nat
  | [], acc => some acc
  | c :: cs, acc =>
    if c.isDigit then decimalAux cs (10 * acc + (c.toNat - 48)) else none

/-- Value of a non-empty all-digit decimal string, else `none` (the SQLite
numeric-affinity conversion applied to `id = ?` comparisons). -/
def decimalToNat? (s : String) : Option Nat :=
  match s.data with
  | [] => none
  | c :: cs => decimalAux (c :: cs) 0

/-! ### Users tables -/

/-- Row of the `users` table in `src/server.js` (lines 47-57):
`id, roblox_id TEXT UNIQUE, username, display_name, rank, combat_points`. -/
structure UserRowS where
  id : Nat
  robloxId : String
  username : String
  displayName : String
  rank : String
  combatPoints : Int
  deriving DecidableEq

/-- Row of the `users` table in the points/valor variants of
`src/unnamed/part_000` (lines 20-32 and 954-966): `id, roblox_id TEXT UNIQUE,
username, display_name, branch, rank, points, valor`.  `branch` and `rank` are
nullable (the keyed verification upsert inserts neither). -/
structure UserRowC where
  id : Nat
  robloxId : String
  username : String
  displayName : String
  branch : Option String
  rank : Option String
  points : Int
  valor : Int
  deriving DecidableEq

/-- `getUserByIdOrRobloxId` row predicate (`src/server.js` lines 107-119):
`WHERE roblox_id = ? OR id = ?`.  The `roblox_id` comparison is TEXT equality;
the `id` comparison applies numeric affinity to the text key. -/
def keyMatchesS (u : UserRowS) (q : String) : Bool :=
  u.robloxId == q || decimalToNat? q == some u.id

/-- `getUserByIdOrRobloxId` (`src/server.js` lines 107-119): `db.get` over a
disjunctive WHERE clause with no ORDER BY — first matching row in table
order. -/
def getUserByIdOrRobloxId (users : List UserRowS) (q : String) :
    Option UserRowS :=
  users.find? (fun u => keyMatchesS u q)

/-- The GET `/api/users/:idOrRobloxId` resolution step paired with the table it
leaves behind: a SELECT writes nothing. -/
def getUserHandler (users : List UserRowS) (q : String) :
    Option UserRowS × List UserRowS :=
  (getUserByIdOrRobloxId users q, users)

/-- `resolveInternalUserId` row predicate (`src/unnamed/part_000` lines
1055-1065): `WHERE id = ? OR roblox_id = ?`. -/
def keyMatchesC (u : UserRowC) (q : String) : Bool :=
  decimalToNat? q == some u.id || u.robloxId == q

/-- `resolveInternalUserId` (`src/unnamed/part_000` lines 1055-1065): returns
the internal `id` of the first matching row, or an error (`none`) when no row
matches. -/
def resolveInternalUserId (users : List UserRowC) (q : String) : Option Nat :=
  (users.find? (fun u => keyMatchesC u q)).map (fun u => u.id)

/-- `ensureUserByRobloxProfile` (`src/server.js` lines 121-147): SELECT by
`roblox_id`; if a row exists, return it unchanged (no UPDATE at all);
otherwise INSERT `(roblox_id, username, display_name, 'Unassigned', 0)` and
return the inserted row.  `freshId` is the AUTOINCREMENT id. -/
def ensureUserByRobloxProfile (users : List UserRowS)
    (robloxId username displayName : String) (freshId : Nat) :
    UserRowS × List UserRowS :=
  match users.find? (fun u => u.robloxId == robloxId) with
  | some row => (row, users)
  | none =>
    let newRow : UserRowS :=
      ⟨freshId, robloxId, username, displayName, "Unassigned", 0⟩
    (newRow, users ++ [newRow])

/-- `POST /api/users` upsert (`src/unnamed/part_000` lines 85-104):
`INSERT INTO users (roblox_id, username, display_name, branch, rank) ...
ON CONFLICT(roblox_id) DO UPDATE SET username = excluded.username,
display_name = excluded.display_name, branch = excluded.branch,
rank = excluded.rank`.  On conflict it overwrites branch and rank as well as
the profile fields; `points` and `valor` keep their stored values. -/
def upsertUserExplicit (users : List UserRowC) (robloxId username displayName :
    String) (branch rank : Option String) (freshId : Nat) : List UserRowC :=
  if users.any (fun u => u.robloxId == robloxId) then
    users.map (fun u =>
      if u.robloxId == robloxId then
        { u with username := username, displayName := displayName,
                 branch := branch, rank := rank }
      else u)
  else
    users ++ [⟨freshId, robloxId, username, displayName, branch, rank, 0, 0⟩]

/-- The keyed upsert inside the verification check (`src/unnamed/part_000`
lines 1402-1409): `INSERT INTO users (roblox_id, username, display_name) ...
ON CONFLICT(roblox_id) DO UPDATE SET username = excluded.username,
display_name = excluded.display_name`.  On conflict only the two profile
fields change; a fresh row has NULL branch/rank and default 0 counters. -/
def upsertUserVerify (users : List UserRowC)
    (robloxId username displayName : String) (freshId : Nat) : List UserRowC :=
  if users.any (fun u => u.robloxId == robloxId) then
    users.map (fun u =>
      if u.robloxId == robloxId then
        { u with username := username, displayName := displayName }
      else u)
  else
    users ++ [⟨freshId, robloxId, username, displayName, none, none, 0, 0⟩]

/-! ### Verification protocol -/

/-- Profile data returned by `GET https://users.roblox.com/v1/users/:id`:
`description` (the bio), `name`, `displayName`. -/
structure Profile where
  description : String
  name : String
  displayName : String
  deriving DecidableEq

/-- Outcome of `POST /api/roblox/check` in both variants.  `noChallenge` is
the 400 "No verification started"/"No verification code found" response;
`expired` the 400 expired response; `upstreamError` the 500 response from the
catch block; `codeMismatch` the 400 "code not found in bio" response;
`success` carries the minted token and the profile-provided username and
display name echoed in the 200 body. -/
inductive CheckResult where
  | noChallenge
  | expired
  | upstreamError
  | codeMismatch
  | success (token username displayName : String)
  deriving DecidableEq

/-- `true` exactly on the 200 branch of the check. -/
def CheckResult.isSuccess : CheckResult → Bool
  | .success _ _ _ => true
  | _ => false

/-- Row of the append-log `verification_codes` table
(`src/unnamed/part_000` lines 772-779): autoincrement `id`, `roblox_id`,
`code`, `created_at`. -/
structure CodeRowB where
  id : Nat
  robloxId : String
  code : String
  createdAt : Int
  deriving DecidableEq

/-- `isExpired` (`src/unnamed/part_000` lines 787-793): with
`diffMs = now - created`, the code is expired when `diffMs / 1000 / 60 > 10`,
i.e. exactly when `diffMs > 600000` (10 minutes in milliseconds; the JS
divisions are exact real divisions, so the two inequalities agree). -/
def isExpired (createdAt now : Int) : Bool :=
  600000 < now - createdAt

/-- `SELECT * FROM verification_codes WHERE roblox_id = ? ORDER BY id DESC
LIMIT 1` (`src/unnamed/part_000` lines 875-882): the matching row of greatest
`id`. -/
def latestCode (codes : List CodeRowB) (r : String) : Option CodeRowB :=
  (codes.filter (fun c => c.robloxId == r)).foldl
    (fun acc c =>
      match acc with
      | none => some c
      | some a => if a.id < c.id then some c else some a)
    none

/-- `POST /api/roblox/check`, append-log variant (`src/unnamed/part_000`
lines 868-924): look up the most recent challenge for `r`; 400 if none; 400 if
expired (before the profile fetch); fetch the profile (`fetch` is its
outcome, 500 on error); 400 if the bio does not contain the code; on success
mint `crypto.randomUUID()` (passed in as `freshToken`) and respond with the
token and profile fields.  No table is written on any path: the handler
performs no INSERT, UPDATE or DELETE. -/
def checkB (codes : List CodeRowB) (r : String) (now : Int)
    (fetch : Except Unit Profile) (freshToken : String) :
    CheckResult × List CodeRowB :=
  match latestCode codes r with
  | none => (.noChallenge, codes)
  | some row =>
    if isExpired row.createdAt now then (.expired, codes)
    else
      match fetch with
      | .error _ => (.upstreamError, codes)
      | .ok p =>
        if strIncludes p.description row.code then
          (.success freshToken p.name p.displayName, codes)
        else (.codeMismatch, codes)

/-- Row of the keyed `verification_codes` table (`src/unnamed/part_000` lines
1010-1016): `roblox_id TEXT PRIMARY KEY, code, expires_at`. -/
structure CodeRowC where
  robloxId : String
  code : String
  expiresAt : Int
  deriving DecidableEq

/-- `POST /api/roblox/check`, keyed-upsert variant (`src/unnamed/part_000`
lines 1371-1430): `SELECT code, expires_at FROM verification_codes WHERE
roblox_id = ?` (primary key — at most one row); 400 if none; 400 if
`expires_at < now` (before the profile fetch); fetch the profile; 400 if the
bio does not contain the code; on success upsert the user with the
profile-provided name/displayName (`upsertUserVerify`), `DELETE FROM
verification_codes WHERE roblox_id = ?`, and respond with the token
`roblox_<id>_<Date.now()>` and the profile fields. -/
def checkC (codes : List CodeRowC) (users : List UserRowC) (r : String)
    (now : Int) (fetch : Except Unit Profile) (freshId : Nat) :
    CheckResult × List CodeRowC × List UserRowC :=
  match codes.find? (fun c => c.robloxId == r) with
  | none => (.noChallenge, codes, users)
  | some row =>
    if row.expiresAt < now then (.expired, codes, users)
    else
      match fetch with
      | .error _ => (.upstreamError, codes, users)
      | .ok p =>
        if strIncludes p.description row.code then
          (.success ("roblox_" ++ r ++ "_" ++ toString now) p.name
              p.displayName,
            codes.filter (fun c => !(c.robloxId == r)),
            upsertUserVerify users r p.name p.displayName freshId)
        else (.codeMismatch, codes, users)

/-! ### Trainings and attendee recording -/

/-- Row of the `trainings` table (`src/server.js` lines 73-80). -/
structure TrainingRow where
  id : Nat
  type : String
  date : String
  hostId : String
  deriving DecidableEq

/-- Outcome of `POST /api/trainings/:trainingId/attendees`: 400 when
`attendees` is not a non-empty array, 404 when the training row is missing
(`src/server.js` variant only), otherwise the 200 `{success: true}`
response. -/
inductive AttendeesResult where
  | badRequest
  | notFound
  | success
  deriving DecidableEq

/-- `POST /api/trainings/:trainingId/attendees`, resolving variant
(`src/unnamed/part_000` lines 1150-1191): for each entry, a falsy id is
skipped; otherwise `resolveInternalUserId` is called and on resolution failure
the entry is only logged and skipped, while a resolved entry is inserted into
`training_attendance (training_id, user_id)`.  `hadError` is never set, so the
request always completes with `{success: true}`.  `attendance` is the existing
`training_attendance` table as `(training_id, user_id)` pairs. -/
def addAttendeesResolving (users : List UserRowC) (trainingId : Nat)
    (attendees : List String) (attendance : List (Nat × Nat)) :
    AttendeesResult × List (Nat × Nat) :=
  if attendees.isEmpty then (.badRequest, attendance)
  else
    (.success,
      attendance ++ attendees.filterMap (fun a =>
        if a = "" then none
        else
          match resolveInternalUserId users a with
          | none => none
          | some internalId => some (trainingId, internalId)))

/-- `POST /api/trainings/:trainingId/attendees` (`src/server.js` lines
345-379): after the non-empty check and the training lookup (404 when
missing), every entry is inserted verbatim into
`training_attendees (training_id, attendee_roblox_id)` with no member
resolution. -/
def addAttendeesServer (trainings : List TrainingRow) (trainingId : Nat)
    (attendees : List String) (attendance : List (Nat × String)) :
    AttendeesResult × List (Nat × String) :=
  if attendees.isEmpty then (.badRequest, attendance)
  else
    match trainings.find? (fun t => t.id == trainingId) with
    | none => (.notFound, attendance)
    | some _ =>
      (.success, attendance ++ attendees.map (fun a => (trainingId, a)))

/-! ### Avatar proxy -/

/-- Outcome of the upstream thumbnail call: `netError` when the HTTP call
throws/rejects, otherwise a parsed body whose `data[0].imageUrl` may be
present (`some url`) or missing (`none`). -/
inductive ThumbOutcome where
  | netError
  | ok (imageUrl : Option String)
  deriving DecidableEq

/-- Avatar-proxy HTTP response: `imageResponse url` is a 200 JSON body whose
`imageUrl` field is `url` (`none` rendering as JSON `null`); `httpError s` is
an error response with status `s`. -/
inductive AvatarResp where
  | imageResponse (url : Option String)
  | httpError (status : Nat)
  deriving DecidableEq

/-- `true` exactly on the error-status responses. -/
def AvatarResp.isHardFailure : AvatarResp → Bool
  | .httpError _ => true
  | .imageResponse _ => false

/-- `GET /api/avatar/:robloxId`, axios variant (`src/server.js` lines
153-187): a missing image URL answers `{imageUrl: null}` and the catch block
also answers `{imageUrl: null}` — both with status 200. -/
def avatarAxios (o : ThumbOutcome) : AvatarResp :=
  match o with
  | .netError => .imageResponse none
  | .ok none => .imageResponse none
  | .ok (some u) => .imageResponse (some u)

/-- `GET /api/avatar/:robloxId`, fetch variant (`src/unnamed/part_000` lines
1029-1049): a missing image URL answers 404 `{error: 'Avatar not found'}` and
the catch block answers 500 `{error: 'Failed to fetch avatar'}`. -/
def avatarFetch (o : ThumbOutcome) : AvatarResp :=
  match o with
  | .netError => .httpError 500
  | .ok none => .httpError 404
  | .ok (some u) => .imageResponse (some u)

/-! ### Aggregate stats -/

/-- Body of the stats response: the three counters. -/
structure Stats where
  activePersonnel : Nat
  trainingsToday : Nat
  medalsAwarded : Nat
  deriving DecidableEq

/-- One COUNT query in `GET /api/admin/stats` (`src/server.js` lines 420-452):
`if (!err && row) stats.x = row.cnt || 0` — on a query error or a missing row
the counter keeps its initial 0, otherwise it becomes the counted value. -/
def statFieldS (q : Except Unit (Option Nat)) : Nat :=
  match q with
  | .error _ => 0
  | .ok none => 0
  | .ok (some n) => n

/-- `GET /api/admin/stats` (`src/server.js` lines 420-452): the three nested
COUNT callbacks always fall through to `res.json(stats)` — status 200 with all
three counters. -/
def adminStatsS (q1 q2 q3 : Except Unit (Option Nat)) : Nat × Stats :=
  (200, ⟨statFieldS q1, statFieldS q2, statFieldS q3⟩)

/-- One COUNT query in the points/valor variant (`src/unnamed/part_000` lines
1280-1301): `status.x = row ? row.count : 0`, ignoring `err`; the sqlite3
driver passes no row on a query error, so an errored query yields 0. -/
def statFieldV (row : Option Nat) : Nat :=
  match row with
  | none => 0
  | some n => n

/-- `GET /api/admin/stats`, points/valor variant (`src/unnamed/part_000` lines
1280-1301). -/
def adminStatsV (r1 r2 r3 : Option Nat) : Nat × Stats :=
  (200, ⟨statFieldV r1, statFieldV r2, statFieldV r3⟩)

end Usaffe

namespace Usaffe

/-! ### Theorems for claims C1 and C2 -/

/-- Claim C1 (amended): for a non-empty presented key, the exchange fails with
InvalidKey exactly when no `admin_keys` row matches; and when a row matches,
the exchange succeeds (returning the fresh token) if and only if the current
time is at or before the key's expiry (`¬ expires_at < now`) and the used flag
is false, fails with Expired exactly when `expires_at < now`, and fails with
AlreadyUsed exactly when the key is unexpired but its used flag is set.  In
particular the exchange still succeeds at the exact expiry instant
`now = expires_at`, which refutes the claim's "strictly before expiry". -/
theorem adminLogin_exchange_validity (keys : List AdminKeyRow) (k : String)
    (now : Int) (t : String) (hk : k ≠ "") :
    (findKey keys k = none → (adminLogin keys k now t).1 = .invalidKey) ∧
    (∀ row, findKey keys k = some row →
      (((adminLogin keys k now t).1 = .token t) ↔
        (¬ row.expiresAt < now ∧ row.used = false)) ∧
      (((adminLogin keys k now t).1 = .expired) ↔ row.expiresAt < now) ∧
      (((adminLogin keys k now t).1 = .alreadyUsed) ↔
        (¬ row.expiresAt < now ∧ row.used = true))) := by
  constructor
  · intro hnone
    simp [adminLogin, hk, hnone, adminLoginFinish]
  · intro row hrow
    simp only [adminLogin, if_neg hk, hrow, adminLoginFinish]
    by_cases hexp : row.expiresAt < now
    · simp [hexp]
    · by_cases hused : row.used
      · simp [hexp, hused]
      · simp [hexp, hused]

/-- Witness for `adminLogin_exchange_validity` at a concrete key table. -/
theorem adminLogin_exchange_validity_witness :
    ("k" : String) ≠ "" ∧
    (adminLogin [⟨1, "k", 0, 1000, false⟩] "k" 500 "t").1 = .token "t" := by
  refine ⟨by decide, ?_⟩
  have h := adminLogin_exchange_validity [⟨1, "k", 0, 1000, false⟩] "k" 500 "t"
    (by decide)
  exact ((h.2 ⟨1, "k", 0, 1000, false⟩ (by decide)).1).mpr (by decide)

/-- Claim C1 counterexample: at the exact expiry instant (`now = expires_at =
1000`) the current time is not strictly before the key's expiry, yet the
exchange succeeds and returns a token.  The claim's "succeeds iff the current
time is strictly before the key's expiry" is therefore false on the code. -/
theorem adminLogin_succeeds_at_expiry_instant :
    (adminLogin [⟨1, "k", 0, 1000, false⟩] "k" 1000 "t").1 = .token "t" ∧
    ¬ ((1000 : Int) < 1000) := by
  decide

/-- Claim C2: sequentially, exchanging the same key twice yields a token and
then AlreadyUsed; but under the concurrent interleaving in which both SELECT
callbacks run before either `UPDATE admin_keys SET used = 1` executes, BOTH
exchanges succeed and return tokens — the used-flag transition is a
read-then-write in application code, not an atomic conditional update, so "at
most one succeeds" fails on the code. -/
theorem adminLogin_race_both_succeed :
    ((adminLogin ((adminLogin [⟨1, "k", 0, 10000, false⟩] "k" 5 "t1").2)
        "k" 6 "t2").1 = .alreadyUsed) ∧
    (adminLoginRace [⟨1, "k", 0, 10000, false⟩] "k" 5 6 "t1" "t2").1 =
      .token "t1" ∧
    (adminLoginRace [⟨1, "k", 0, 10000, false⟩] "k" 5 6 "t1" "t2").2.1 =
      .token "t2" := by
  decide

/-! ### Theorems for claims C3, C4 and C5 -/

/-- Claim C3 (amended, keyed-upsert variant): whenever the check succeeds (a
challenge row exists, it is unexpired, the profile fetch succeeds and the bio
contains the code), the member is upserted with the profile-provided username
and display name, the consumed challenge row is deleted so that any later
check for the same identifier fails with NoChallenge (no replay), and the
minted token is returned together with the member's profile fields.  (In the
append-log variant a successful check performs no upsert and no deletion; see
the counterexample.) -/
theorem checkC_success_consumes_and_upserts
    (codes : List CodeRowC) (users : List UserRowC) (r : String) (now : Int)
    (p : Profile) (freshId : Nat) (row : CodeRowC)
    (hrow : codes.find? (fun c => c.robloxId == r) = some row)
    (hexp : ¬ row.expiresAt < now)
    (hbio : strIncludes p.description row.code = true) :
    (checkC codes users r now (.ok p) freshId).1 =
      .success ("roblox_" ++ r ++ "_" ++ toString now) p.name p.displayName ∧
    (∃ u ∈ (checkC codes users r now (.ok p) freshId).2.2,
      u.robloxId = r ∧ u.username = p.name ∧ u.displayName = p.displayName) ∧
    (∀ c ∈ (checkC codes users r now (.ok p) freshId).2.1, c.robloxId ≠ r) ∧
    (∀ now' fetch' fid',
      (checkC (checkC codes users r now (.ok p) freshId).2.1
        (checkC codes users r now (.ok p) freshId).2.2 r now' fetch'
        fid').1 = .noChallenge) := by
  have hres : checkC codes users r now (.ok p) freshId =
      (.success ("roblox_" ++ r ++ "_" ++ toString now) p.name p.displayName,
        codes.filter (fun c => !(c.robloxId == r)),
        upsertUserVerify users r p.name p.displayName freshId) := by
    simp [checkC, hrow, hexp, hbio]
  refine ⟨by rw [hres], ?_, ?_, ?_⟩
  · rw [hres]
    by_cases hany : users.any (fun u => u.robloxId == r) = true
    · obtain ⟨m, hm, hmr⟩ := List.any_eq_true.mp hany
      refine ⟨{ m with username := p.name, displayName := p.displayName },
        ?_, ?_, rfl, rfl⟩
      · simp only [upsertUserVerify, hany, if_pos]
        have := List.mem_map_of_mem (fun u : UserRowC =>
          if u.robloxId == r then
            { u with username := p.name, displayName := p.displayName }
          else u) hm
        simpa [hmr] using this
      · exact beq_iff_eq.mp hmr
    · refine ⟨⟨freshId, r, p.name, p.displayName, none, none, 0, 0⟩, ?_,
        rfl, rfl, rfl⟩
      simp only [upsertUserVerify, hany, if_neg, Bool.false_eq_true,
        not_false_iff]
      simp
  · rw [hres]
    intro c hc
    have := (List.mem_filter.mp hc).2
    simpa using this
  · intro now' fetch' fid'
    rw [hres]
    have hnone : (codes.filter (fun c => !(c.robloxId == r))).find?
        (fun c => c.robloxId == r) = none := by
      apply List.find?_eq_none.mpr
      intro c hc
      have := (List.mem_filter.mp hc).2
      simpa using this
    simp [checkC, hnone]

/-- Witness for `checkC_success_consumes_and_upserts` at a concrete state. -/
theorem checkC_success_consumes_and_upserts_witness :
    (checkC [⟨"42", "USAFE-ABC123", 10000⟩] [] "42" 1000
        (.ok ⟨"x USAFE-ABC123", "alice", "Alice"⟩) 7).1 =
      .success ("roblox_" ++ "42" ++ "_" ++ toString (1000 : Int)) "alice"
        "Alice" :=
  (checkC_success_consumes_and_upserts [⟨"42", "USAFE-ABC123", 10000⟩] []
    "42" 1000 ⟨"x USAFE-ABC123", "alice", "Alice"⟩ 7
    ⟨"42", "USAFE-ABC123", 10000⟩ (by decide) (by decide) (by decide)).1

/-- Claim C3 counterexample (append-log variant, `src/unnamed/part_000` lines
868-924): a successful check returns a token but writes nothing — the
challenge row is still present afterwards, the identical check succeeds a
second time (the code is replayed), and no member row is created (the handler
touches no `users` table at all).  This refutes "the Member is upserted … the
consumed challenge is deleted or superseded so the same code cannot be
replayed" for this cited variant. -/
theorem checkB_success_replayable :
    (checkB [⟨1, "42", "USAFE-ABC123", 0⟩] "42" 1000
        (.ok ⟨"bio USAFE-ABC123", "alice", "Alice"⟩) "t").1 =
      .success "t" "alice" "Alice" ∧
    (checkB [⟨1, "42", "USAFE-ABC123", 0⟩] "42" 1000
        (.ok ⟨"bio USAFE-ABC123", "alice", "Alice"⟩) "t").2 =
      [⟨1, "42", "USAFE-ABC123", 0⟩] ∧
    (checkB ((checkB [⟨1, "42", "USAFE-ABC123", 0⟩] "42" 1000
        (.ok ⟨"bio USAFE-ABC123", "alice", "Alice"⟩) "t").2) "42" 2000
        (.ok ⟨"bio USAFE-ABC123", "alice", "Alice"⟩) "t2").1 =
      .success "t2" "alice" "Alice" := by
  decide

/-- Claim C4: in the append-log variant, when the most recent challenge for an
identifier was issued more than 10 minutes (600000 ms) before the check, the
check fails with Expired for EVERY profile-fetch outcome — the expiry test
precedes the external fetch. -/
theorem checkB_expired_before_fetch (codes : List CodeRowB) (r : String)
    (now : Int) (row : CodeRowB) (hrow : latestCode codes r = some row)
    (hlate : 600000 < now - row.createdAt) :
    ∀ (fetch : Except Unit Profile) (freshToken : String),
      (checkB codes r now fetch freshToken).1 = .expired := by
  intro fetch freshToken
  simp [checkB, hrow, isExpired, hlate]

/-- Witness for `checkB_expired_before_fetch`: 600001 ms after issuance the
check is Expired even though the fetched bio does contain the code. -/
theorem checkB_expired_before_fetch_witness :
    (checkB [⟨1, "42", "USAFE-ABC123", 0⟩] "42" 600001
        (.ok ⟨"bio USAFE-ABC123", "alice", "Alice"⟩) "t").1 = .expired :=
  checkB_expired_before_fetch [⟨1, "42", "USAFE-ABC123", 0⟩] "42" 600001
    ⟨1, "42", "USAFE-ABC123", 0⟩ (by decide) (by decide)
    (.ok ⟨"bio USAFE-ABC123", "alice", "Alice"⟩) "t"

/-- Claim C5: a check that does not succeed leaves the stored challenge data
unchanged — the append-log handler never writes at all, and the keyed-upsert
handler leaves both the `verification_codes` and `users` tables unchanged on
every non-success outcome; consequently the same challenge is checkable again:
a later keyed-variant check before the challenge's expiry whose fetched bio
contains the code succeeds. -/
theorem check_failure_preserves_challenge :
    (∀ (codes : List CodeRowB) (r : String) (now : Int)
      (fetch : Except Unit Profile) (t : String),
      (checkB codes r now fetch t).2 = codes) ∧
    (∀ (codes : List CodeRowC) (users : List UserRowC) (r : String)
      (now : Int) (fetch : Except Unit Profile) (fid : Nat),
      (checkC codes users r now fetch fid).1.isSuccess = false →
      (checkC codes users r now fetch fid).2.1 = codes ∧
      (checkC codes users r now fetch fid).2.2 = users) ∧
    (∀ (codes : List CodeRowC) (users : List UserRowC) (r : String)
      (now : Int) (fetch : Except Unit Profile) (fid : Nat)
      (row : CodeRowC),
      codes.find? (fun c => c.robloxId == r) = some row →
      (checkC codes users r now fetch fid).1.isSuccess = false →
      ∀ (now' : Int) (p' : Profile) (fid' : Nat),
        ¬ row.expiresAt < now' →
        strIncludes p'.description row.code = true →
        (checkC (checkC codes users r now fetch fid).2.1
          (checkC codes users r now fetch fid).2.2 r now' (.ok p')
          fid').1.isSuccess = true) := by
  have hC : ∀ (codes : List CodeRowC) (users : List UserRowC) (r : String)
      (now : Int) (fetch : Except Unit Profile) (fid : Nat),
      (checkC codes users r now fetch fid).1.isSuccess = false →
      (checkC codes users r now fetch fid).2.1 = codes ∧
      (checkC codes users r now fetch fid).2.2 = users := by
    intro codes users r now fetch fid
    unfold checkC
    cases hfind : codes.find? (fun c => c.robloxId == r) with
    | none => simp
    | some row =>
      by_cases hexp : row.expiresAt < now
      · simp [hexp]
      · cases fetch with
        | error e => simp [hexp]
        | ok p =>
          by_cases hbio : strIncludes p.description row.code = true
          · simp [hexp, hbio, CheckResult.isSuccess]
          · simp [hexp, hbio]
  refine ⟨?_, hC, ?_⟩
  · intro codes r now fetch t
    unfold checkB
    cases latestCode codes r with
    | none => rfl
    | some row =>
      by_cases hexp : isExpired row.createdAt now
      · simp [hexp]
      · cases fetch with
        | error e => simp [hexp]
        | ok p =>
          by_cases hbio : strIncludes p.description row.code = true
          · simp [hexp, hbio]
          · simp [hexp, hbio]
  · intro codes users r now fetch fid row hfind hfail now' p' fid' hexp' hbio'
    obtain ⟨hc, hu⟩ := hC codes users r now fetch fid hfail
    rw [hc, hu]
    simp [checkC, hfind, hexp', hbio', CheckResult.isSuccess]

/-- Witness for `check_failure_preserves_challenge`: a CodeMismatch check (the
code is absent from the bio) leaves the keyed challenge table unchanged. -/
theorem check_failure_preserves_challenge_witness :
    (checkC [⟨"42", "USAFE-ABC123", 10000⟩] [] "42" 1000
        (.ok ⟨"no code here", "alice", "Alice"⟩) 7).2.1 =
      [⟨"42", "USAFE-ABC123", 10000⟩] :=
  (check_failure_preserves_challenge.2.1 [⟨"42", "USAFE-ABC123", 10000⟩] []
    "42" 1000 (.ok ⟨"no code here", "alice", "Alice"⟩) 7 (by decide)).1

/-! ### Theorems for claims C6 and C7 -/

/-- Claim C6 (amended): for an existing member, the keyed upsert used by the
verification check overwrites only username and display name and leaves id,
external id, branch, rank and both numeric counters untouched, and leaves
every row for a different external id untouched; the explicit `POST
/api/users` upsert additionally overwrites branch and rank (counters still
untouched); and `ensureUserByRobloxProfile` performs no write at all for an
existing member — it does not even refresh the profile fields. -/
theorem upsert_frame_properties
    (users : List UserRowC) (m : UserRowC) (r un dn : String)
    (br rk : Option String) (fid : Nat)
    (hm : m ∈ users) (hr : m.robloxId = r) :
    (∃ u ∈ upsertUserVerify users r un dn fid,
      u.id = m.id ∧ u.robloxId = m.robloxId ∧ u.username = un ∧
      u.displayName = dn ∧ u.branch = m.branch ∧ u.rank = m.rank ∧
      u.points = m.points ∧ u.valor = m.valor) ∧
    (∀ u ∈ users, u.robloxId ≠ r → u ∈ upsertUserVerify users r un dn fid) ∧
    (∃ u ∈ upsertUserExplicit users r un dn br rk fid,
      u.id = m.id ∧ u.username = un ∧ u.displayName = dn ∧
      u.branch = br ∧ u.rank = rk ∧ u.points = m.points ∧
      u.valor = m.valor) ∧
    (∀ (usersS : List UserRowS) (mS : UserRowS) (unS dnS : String)
      (fidS : Nat),
      usersS.find? (fun u => u.robloxId == mS.robloxId) = some mS →
      ensureUserByRobloxProfile usersS mS.robloxId unS dnS fidS =
        (mS, usersS)) := by
  have hany : users.any (fun u => u.robloxId == r) = true :=
    List.any_eq_true.mpr ⟨m, hm, by simp [hr]⟩
  refine ⟨?_, ?_, ?_, ?_⟩
  · refine ⟨⟨m.id, m.robloxId, un, dn, m.branch, m.rank, m.points, m.valor⟩,
      ?_, rfl, rfl, rfl, rfl, rfl, rfl, rfl, rfl⟩
    simp only [upsertUserVerify, hany, if_pos]
    have := List.mem_map_of_mem (fun u : UserRowC =>
      if u.robloxId == r then
        { u with username := un, displayName := dn }
      else u) hm
    simpa [hr] using this
  · intro u hu hne
    simp only [upsertUserVerify, hany, if_pos]
    have := List.mem_map_of_mem (fun u : UserRowC =>
      if u.robloxId == r then
        { u with username := un, displayName := dn }
      else u) hu
    simpa [hne] using this
  · refine ⟨⟨m.id, m.robloxId, un, dn, br, rk, m.points, m.valor⟩,
      ?_, rfl, rfl, rfl, rfl, rfl, rfl, rfl⟩
    simp only [upsertUserExplicit, hany, if_pos]
    have := List.mem_map_of_mem (fun u : UserRowC =>
      if u.robloxId == r then
        { u with username := un, displayName := dn, branch := br, rank := rk }
      else u) hm
    simpa [hr] using this
  · intro usersS mS unS dnS fidS hfind
    simp [ensureUserByRobloxProfile, hfind]

/-- Witness for `upsert_frame_properties` at a concrete table. -/
theorem upsert_frame_properties_witness :
    ∃ u ∈ upsertUserVerify
        [⟨1, "42", "u", "d", some "A", some "Sgt", 5, 3⟩] "42" "u2" "d2" 99,
      u.id = 1 ∧ u.robloxId = "42" ∧ u.username = "u2" ∧
      u.displayName = "d2" ∧ u.branch = some "A" ∧ u.rank = some "Sgt" ∧
      u.points = 5 ∧ u.valor = 3 :=
  (upsert_frame_properties [⟨1, "42", "u", "d", some "A", some "Sgt", 5, 3⟩]
    ⟨1, "42", "u", "d", some "A", some "Sgt", 5, 3⟩ "42" "u2" "d2" none none
    99 (by decide) rfl).1

/-- Claim C6 counterexample: the `POST /api/users` upsert
(`src/unnamed/part_000` lines 85-104) is one of the cited upserts, and on an
existing member it overwrites rank (and branch) — here the stored rank
`General` becomes `Private` — refuting "the member's numeric counters and rank
are left untouched by the upsert" as stated.  The counters are indeed kept. -/
theorem upsertUserExplicit_overwrites_rank :
    upsertUserExplicit
        [⟨1, "77", "u", "d", some "Army", some "General", 5, 3⟩]
        "77" "u2" "d2" (some "Navy") (some "Private") 99 =
      [⟨1, "77", "u2", "d2", some "Navy", some "Private", 5, 3⟩] ∧
    (some "Private" : Option String) ≠ some "General" := by
  decide

/-- `List.find?` returns the element when it is the unique satisfier of the
predicate in the list. -/
theorem find_first_of_unique {α : Type} (p : α → Bool) (l : List α) (m : α)
    (hm : m ∈ l) (hp : p m = true) (hu : ∀ u ∈ l, p u = true → u = m) :
    l.find? p = some m := by
  induction l with
  | nil => cases hm
  | cons a t ih =>
    by_cases hpa : p a = true
    · have ha : a = m := hu a (List.mem_cons_self a t) hpa
      subst ha
      exact List.find?_cons_of_pos t hpa
    · have hmt : m ∈ t := by
        rcases List.mem_cons.mp hm with rfl | h
        · exact absurd hp hpa
        · exact h
      rw [List.find?_cons_of_neg t (by simpa using hpa)]
      exact ih hmt (fun u hu' hpu => hu u (List.mem_cons_of_mem a hu') hpu)

/-- Claim C7 (amended): resolution is read-only and returns the FIRST row
matching `roblox_id = ? OR id = ?` in table order.  For a stored member `m`,
looking it up by its internal id (any key whose numeric value is `m.id`) and
by its external id return the identical record `m`, provided no OTHER member
collides: no other row's `roblox_id` equals the internal-id key, and `m`'s
`roblox_id` does not parse to another row's internal id (without these
provisos the two lookups can return different members — see the
counterexample).  When no row matches the key at all, resolution fails with
NotFound, and in every case the table is left unchanged. -/
theorem resolve_consistent_without_collision
    (users : List UserRowS) (m : UserRowS) (q1 : String)
    (hm : m ∈ users)
    (hq1 : decimalToNat? q1 = some m.id)
    (hids : ∀ u ∈ users, u.id = m.id → u = m)
    (hrb : ∀ u ∈ users, u.robloxId = m.robloxId → u = m)
    (hcol1 : ∀ u ∈ users, u.robloxId = q1 → u = m)
    (hcol2 : ∀ u ∈ users, decimalToNat? m.robloxId = some u.id → u = m) :
    getUserByIdOrRobloxId users q1 = some m ∧
    getUserByIdOrRobloxId users m.robloxId = some m ∧
    (∀ q, (∀ u ∈ users, keyMatchesS u q = false) →
      getUserByIdOrRobloxId users q = none) ∧
    (∀ q, (getUserHandler users q).2 = users) := by
  refine ⟨?_, ?_, ?_, fun q => rfl⟩
  · apply find_first_of_unique _ _ m hm
    · simp [keyMatchesS, hq1]
    · intro u hu hpu
      simp only [keyMatchesS, Bool.or_eq_true, beq_iff_eq] at hpu
      rcases hpu with h1 | h2
      · exact hcol1 u hu h1
      · have hidu : u.id = m.id :=
          (Option.some_inj.mp (hq1.symm.trans h2)).symm
        exact hids u hu hidu
  · apply find_first_of_unique _ _ m hm
    · simp [keyMatchesS]
    · intro u hu hpu
      simp only [keyMatchesS, Bool.or_eq_true, beq_iff_eq] at hpu
      rcases hpu with h1 | h2
      · exact hrb u hu h1
      · exact hcol2 u hu h2
  · intro q hq
    apply List.find?_eq_none.mpr
    intro u hu
    simp [hq u hu]

/-- Witness for `resolve_consistent_without_collision` on a one-member
table. -/
theorem resolve_consistent_without_collision_witness :
    getUserByIdOrRobloxId [⟨1, "42", "alice", "Alice", "Pvt", 0⟩] "1" =
      some ⟨1, "42", "alice", "Alice", "Pvt", 0⟩ ∧
    getUserByIdOrRobloxId [⟨1, "42", "alice", "Alice", "Pvt", 0⟩] "42" =
      some ⟨1, "42", "alice", "Alice", "Pvt", 0⟩ :=
  ⟨(resolve_consistent_without_collision
      [⟨1, "42", "alice", "Alice", "Pvt", 0⟩]
      ⟨1, "42", "alice", "Alice", "Pvt", 0⟩ "1" (by decide) (by decide)
      (by decide) (by decide) (by decide) (by decide)).1,
   (resolve_consistent_without_collision
      [⟨1, "42", "alice", "Alice", "Pvt", 0⟩]
      ⟨1, "42", "alice", "Alice", "Pvt", 0⟩ "1" (by decide) (by decide)
      (by decide) (by decide) (by decide) (by decide)).2.1⟩

/-- Claim C7 counterexample: member bob has internal id 2 and external id
"999", while member alice's external id is the string "2".  Resolving bob by
his internal id returns alice (her `roblox_id` matches first in the
disjunctive scan), while resolving bob by his external id returns bob: the two
records are different, refuting "resolving by its internal identifier and
resolving by its external account identifier return identical records".  Both
rows are reachable through `POST /api/users`. -/
theorem resolve_collision_mismatch :
    getUserByIdOrRobloxId
        [⟨1, "2", "alice", "Alice", "Pvt", 0⟩,
         ⟨2, "999", "bob", "Bob", "Sgt", 0⟩] "2" =
      some ⟨1, "2", "alice", "Alice", "Pvt", 0⟩ ∧
    getUserByIdOrRobloxId
        [⟨1, "2", "alice", "Alice", "Pvt", 0⟩,
         ⟨2, "999", "bob", "Bob", "Sgt", 0⟩] "999" =
      some ⟨2, "999", "bob", "Bob", "Sgt", 0⟩ ∧
    (⟨1, "2", "alice", "Alice", "Pvt", 0⟩ : UserRowS) ≠
      ⟨2, "999", "bob", "Bob", "Sgt", 0⟩ := by
  decide

/-! ### Theorems for claims C8, C9 and C10 -/

/-- Claim C8: for any non-empty attendee list, the resolving variant records
every entry that resolves to a member as an attendee of the training, keeps
the pre-existing attendance rows, and completes with the success response even
when some entries fail resolution — a bad identifier is skipped, never aborts
the request; and in the `src/server.js` variant, when the training exists the
request also completes with success and every listed entry is inserted. -/
theorem addAttendees_partial_success
    (users : List UserRowC) (trainingId : Nat) (attendees : List String)
    (attendance : List (Nat × Nat)) (hne : attendees ≠ []) :
    (addAttendeesResolving users trainingId attendees attendance).1 =
      .success ∧
    (∀ a ∈ attendees, ∀ uid : Nat, a ≠ "" →
      resolveInternalUserId users a = some uid →
      (trainingId, uid) ∈
        (addAttendeesResolving users trainingId attendees attendance).2) ∧
    (∀ pr ∈ attendance,
      pr ∈ (addAttendeesResolving users trainingId attendees attendance).2) ∧
    (∀ (trainings : List TrainingRow) (t : TrainingRow)
      (att2 : List (Nat × String)),
      trainings.find? (fun tr => tr.id == trainingId) = some t →
      (addAttendeesServer trainings trainingId attendees att2).1 =
        .success ∧
      ∀ a ∈ attendees,
        (trainingId, a) ∈
          (addAttendeesServer trainings trainingId attendees att2).2) := by
  have hemp : attendees.isEmpty = false := by
    cases attendees with
    | nil => exact absurd rfl hne
    | cons a as => rfl
  refine ⟨?_, ?_, ?_, ?_⟩
  · simp [addAttendeesResolving, hemp]
  · intro a ha uid hne' hres
    simp only [addAttendeesResolving, hemp, Bool.false_eq_true, if_false]
    apply List.mem_append_right
    apply List.mem_filterMap.mpr
    exact ⟨a, ha, by simp [hne', hres]⟩
  · intro pr hpr
    simp only [addAttendeesResolving, hemp, Bool.false_eq_true, if_false]
    exact List.mem_append_left _ hpr
  · intro trainings t att2 hfind
    refine ⟨by simp [addAttendeesServer, hemp, hfind], ?_⟩
    intro a ha
    simp only [addAttendeesServer, hemp, Bool.false_eq_true, if_false, hfind]
    exact List.mem_append_right _ (List.mem_map_of_mem _ ha)

/-- Witness for `addAttendees_partial_success`: recording
`["a", "b", "missing"]` for training 9 completes with success and the
resolvable entries "a" (user 1) and "b" (user 2) are both inserted. -/
theorem addAttendees_partial_success_witness :
    (addAttendeesResolving
        [⟨1, "a", "ua", "da", none, none, 0, 0⟩,
         ⟨2, "b", "ub", "db", none, none, 0, 0⟩]
        9 ["a", "b", "missing"] []).1 = .success ∧
    (9, 1) ∈ (addAttendeesResolving
        [⟨1, "a", "ua", "da", none, none, 0, 0⟩,
         ⟨2, "b", "ub", "db", none, none, 0, 0⟩]
        9 ["a", "b", "missing"] []).2 ∧
    (9, 2) ∈ (addAttendeesResolving
        [⟨1, "a", "ua", "da", none, none, 0, 0⟩,
         ⟨2, "b", "ub", "db", none, none, 0, 0⟩]
        9 ["a", "b", "missing"] []).2 :=
  ⟨(addAttendees_partial_success
      [⟨1, "a", "ua", "da", none, none, 0, 0⟩,
       ⟨2, "b", "ub", "db", none, none, 0, 0⟩]
      9 ["a", "b", "missing"] [] (by decide)).1,
   (addAttendees_partial_success
      [⟨1, "a", "ua", "da", none, none, 0, 0⟩,
       ⟨2, "b", "ub", "db", none, none, 0, 0⟩]
      9 ["a", "b", "missing"] [] (by decide)).2.1 "a" (by decide) 1
      (by decide) (by decide),
   (addAttendees_partial_success
      [⟨1, "a", "ua", "da", none, none, 0, 0⟩,
       ⟨2, "b", "ub", "db", none, none, 0, 0⟩]
      9 ["a", "b", "missing"] [] (by decide)).2.1 "b" (by decide) 2
      (by decide) (by decide)⟩

/-- Claim C9 (amended, axios variant): for every outcome of the upstream
thumbnail call the `src/server.js` avatar proxy never produces an error
status — a network error or a missing image URL both degrade to the 200
`{imageUrl: null}` response, and a present image URL is relayed.  (The fetch
variant in `src/unnamed/part_000` does hard-fail; see the counterexample.) -/
theorem avatarAxios_never_hard_fails :
    (∀ o : ThumbOutcome, (avatarAxios o).isHardFailure = false) ∧
    avatarAxios .netError = .imageResponse none ∧
    avatarAxios (.ok none) = .imageResponse none ∧
    (∀ u : String, avatarAxios (.ok (some u)) = .imageResponse (some u)) := by
  refine ⟨?_, rfl, rfl, fun u => rfl⟩
  intro o
  cases o with
  | netError => rfl
  | ok i => cases i <;> rfl

/-- Claim C9 counterexample: the fetch variant of the avatar proxy
(`src/unnamed/part_000` lines 1029-1049), one of the cited implementations,
answers a missing upstream image with HTTP 404 and a network error with HTTP
500 — error statuses, not a null-image response — refuting "the avatar-proxy
endpoint never returns an error status". -/
theorem avatarFetch_hard_fails :
    avatarFetch (.ok none) = .httpError 404 ∧
    avatarFetch .netError = .httpError 500 := by
  decide

/-- Claim C10: both stats endpoints always answer status 200 with all three
counters present; a counter whose COUNT query errors (or yields no row) is
reported as 0 instead of propagating the error, and a counter whose query
yields a row reports the counted value. -/
theorem adminStats_always_200 (q1 q2 q3 : Except Unit (Option Nat))
    (r1 r2 r3 : Option Nat) :
    (adminStatsS q1 q2 q3).1 = 200 ∧
    (∀ e, q1 = .error e → (adminStatsS q1 q2 q3).2.activePersonnel = 0) ∧
    (∀ e, q2 = .error e → (adminStatsS q1 q2 q3).2.trainingsToday = 0) ∧
    (∀ e, q3 = .error e → (adminStatsS q1 q2 q3).2.medalsAwarded = 0) ∧
    (∀ n, q1 = .ok (some n) →
      (adminStatsS q1 q2 q3).2.activePersonnel = n) ∧
    (∀ n, q2 = .ok (some n) →
      (adminStatsS q1 q2 q3).2.trainingsToday = n) ∧
    (∀ n, q3 = .ok (some n) →
      (adminStatsS q1 q2 q3).2.medalsAwarded = n) ∧
    (adminStatsV r1 r2 r3).1 = 200 ∧
    (r1 = none → (adminStatsV r1 r2 r3).2.activePersonnel = 0) ∧
    (∀ n, r1 = some n → (adminStatsV r1 r2 r3).2.activePersonnel = n) := by
  refine ⟨rfl, ?_, ?_, ?_, ?_, ?_, ?_, rfl, ?_, ?_⟩
  · intro e h; rw [h]; rfl
  · intro e h; rw [h]; rfl
  · intro e h; rw [h]; rfl
  · intro n h; rw [h]; rfl
  · intro n h; rw [h]; rfl
  · intro n h; rw [h]; rfl
  · intro h; rw [h]; rfl
  · intro n h; rw [h]; rfl

/-- Witness for `adminStats_always_200`: with the first query failing and the
others counting 3 and 0, the response is 200 with counters (0, 3, 0). -/
theorem adminStats_always_200_witness :
    (adminStatsS (.error ()) (.ok (some 3)) (.ok (some 0))).1 = 200 ∧
    ((adminStatsS (.error ()) (.ok (some 3)) (.ok (some 0))).2).activePersonnel
      = 0 ∧
    ((adminStatsS (.error ()) (.ok (some 3)) (.ok (some 0))).2).trainingsToday
      = 3 :=
  ⟨(adminStats_always_200 (.error ()) (.ok (some 3)) (.ok (some 0))
      none none none).1,
   (adminStats_always_200 (.error ()) (.ok (some 3)) (.ok (some 0))
      none none none).2.1 () rfl,
   (adminStats_always_200 (.error ()) (.ok (some 3)) (.ok (some 0))
      none none none).2.2.2.2.2.1 3 rfl⟩

end Usaffe
